import Mathlib

/-!
Shallow embedding of the WAVM-based `WasmVm` implementation
(`src/wavm/wavm.cc` of proxy-wasm-cpp-host) and verification of its
specified properties.

Machine integers are modelled as `Nat` with explicit `% 2 ^ 64` where the
C++ performs `uint64_t` arithmetic.  Guest linear memory is modelled as a
list of byte values; WAVM runtime handles (compartments, contexts,
instances) that the embedding only passes around are modelled as opaque
numeric handles.
-/

/-- Modulus of the C++ `uint64_t` type used for pointers and sizes. -/
def U64_MOD : Nat := 2 ^ 64

/-- `WasmPageSize = 1 << 16` (`wavm.cc` line 144). -/
def WasmPageSize : Nat := 2 ^ 16

/-- The 4-byte WASM binary magic number `{0x00, 0x61, 0x73, 0x6d}`
(`wavm.cc` line 148). -/
def wasmMagicNumber : List Nat := [0x00, 0x61, 0x73, 0x6d]

/-- Which parser `loadModule` hands the bytes to. -/
inductive ParseFormat
  | binary
  | text
deriving DecidableEq

/-- Format dispatch of `loadModule` (`wavm.cc` lines 146-160): binary
parsing is attempted exactly when the code has at least 4 bytes and
`memcmp(code.data(), WasmMagicNumber, 4) == 0`; otherwise text parsing is
attempted.  Parsing itself is external WAVM code; only the dispatch is
embedded. -/
def loadModuleFormat (code : List Nat) : ParseFormat :=
  if 4 ≤ code.length ∧ code.take 4 = wasmMagicNumber then ParseFormat.binary
  else ParseFormat.text

/-- `IR::CustomSection`: a named custom section with a raw byte payload. -/
structure CustomSection where
  name : String
  data : List Nat
deriving DecidableEq

/-- The part of `IR::Module` the embedding reads: its custom sections.
A default-constructed `IR::Module` has no custom sections. -/
structure IRModule where
  customSections : List CustomSection := []
deriving DecidableEq

/-- `Wavm::getPrecompiledSectionName` (`wavm.cc` line 336). -/
def getPrecompiledSectionName : String := "wavm.precompiled_object"

/-- The `module_` member after `Wavm::load`: either the result of
`WAVM::Runtime::compileModule(ir_module_)` or of
`WAVM::Runtime::loadPrecompiledModule(ir_module_, section.data)`. -/
inductive ModuleRef
  | compiled (ir : IRModule)
  | precompiled (ir : IRModule) (data : List Nat)
deriving DecidableEq

/-- The precompiled-object-section scan of `Wavm::load` (`wavm.cc` lines
258-266): the loop takes the first custom section whose name equals
`getPrecompiledSectionName()` and breaks. -/
def findPrecompiledObjectSection (sections : List CustomSection) : Option CustomSection :=
  sections.find? (fun s => decide (s.name = getPrecompiledSectionName))

/-- The compile-or-load-precompiled choice of `Wavm::load` (`wavm.cc`
lines 257-272), as a function of the parsed module and the
`allow_precompiled` flag. -/
def wavmSelectModule (ir : IRModule) (allow_precompiled : Bool) : ModuleRef :=
  match (if allow_precompiled then findPrecompiledObjectSection ir.customSections else none) with
  | none => ModuleRef.compiled ir
  | some s => ModuleRef.precompiled ir s.data

/-- The `WAVM::Runtime::Memory` object reachable from `memory_` /
`memory_base_`: a page count and the byte contents starting at the base
address. -/
structure RuntimeMemory where
  num_pages : Nat
  bytes : List Nat
deriving DecidableEq

/-- State of a `Wavm` VM (`wavm.cc` lines 176-221).  Runtime handles the
embedding never inspects are opaque `Nat`s.  Structure defaults are the
C++ member initialisers / default constructors. -/
structure Wavm where
  has_instantiated_module_ : Bool := false
  ir_module_ : IRModule := {}
  module_ : Option ModuleRef := none
  module_instance_ : Option Nat := none
  memory_ : RuntimeMemory := ⟨0, []⟩
  compartment_ : Nat := 0
  context_ : Nat := 0
  intrinsic_module_instances_ : List (String × Nat) := []
deriving DecidableEq

/-- `Wavm::getMemorySize` (`wavm.cc` line 290):
`getMemoryNumPages(memory_) * WasmPageSize` in `uint64_t` arithmetic. -/
def Wavm.getMemorySize (w : Wavm) : Nat :=
  w.memory_.num_pages * WasmPageSize % U64_MOD

/-- `Wavm::getMemory` (`wavm.cc` lines 292-298).  The bounds check is the
C++ `pointer + size > memory_num_bytes` where `pointer + size` is
`uint64_t` addition, i.e. wraps modulo `2 ^ 64`.  On success it returns
the `size`-byte view at `memory_base_ + pointer`. -/
def Wavm.getMemory (w : Wavm) (pointer size : Nat) : Option (List Nat) :=
  let memory_num_bytes := w.memory_.num_pages * WasmPageSize % U64_MOD
  if (pointer + size) % U64_MOD > memory_num_bytes then none
  else some ((w.memory_.bytes.drop pointer).take size)

/-- `Wavm::setMemory` (`wavm.cc` lines 300-308).  Same wrapping bounds
check; on success `memcpy` writes exactly `size` bytes of `data` at
offset `pointer`. -/
def Wavm.setMemory (w : Wavm) (pointer size : Nat) (data : List Nat) : Wavm × Bool :=
  let memory_num_bytes := w.memory_.num_pages * WasmPageSize % U64_MOD
  if (pointer + size) % U64_MOD > memory_num_bytes then (w, false)
  else
    let new_bytes :=
      w.memory_.bytes.take pointer ++ data.take size ++ w.memory_.bytes.drop (pointer + size)
    ({ w with memory_ := { w.memory_ with bytes := new_bytes } }, true)

/-- Little-endian reassembly of up to 4 memory bytes into a `uint32`,
modelling `memcpy(&data32, p, sizeof(uint32_t))` on the (little-endian)
hosts this code targets. -/
def bytesToU32 (bs : List Nat) : Nat :=
  (bs.take 4).foldr (fun b acc => b % 256 + 256 * acc) 0

/-- Little-endian byte image of a `uint32`, modelling the bytes of the
local `uint32_t data32` passed to `memcpy`. -/
def u32ToBytes (v : Nat) : List Nat :=
  [v % 256, v / 2 ^ 8 % 256, v / 2 ^ 16 % 256, v / 2 ^ 24 % 256]

/-- `Wavm::getWord` (`wavm.cc` lines 310-320): bounds check
`pointer + sizeof(uint32_t) > memory_num_bytes` with wrapping `uint64_t`
addition; on success reads 4 bytes into a `uint32_t` and zero-extends it
into `data->u64_`. -/
def Wavm.getWord (w : Wavm) (pointer : Nat) : Option Nat :=
  let memory_num_bytes := w.memory_.num_pages * WasmPageSize % U64_MOD
  if (pointer + 4) % U64_MOD > memory_num_bytes then none
  else some (bytesToU32 ((w.memory_.bytes.drop pointer).take 4))

/-- `Wavm::setWord` (`wavm.cc` lines 322-325): truncates the word to
`uint32_t` via `data.u32()` and delegates to `setMemory(pointer, 4, _)`. -/
def Wavm.setWord (w : Wavm) (pointer : Nat) (data : Nat) : Wavm × Bool :=
  Wavm.setMemory w pointer 4 (u32ToBytes (data % 2 ^ 32))

/-- `Wavm::getCustomSection` (`wavm.cc` lines 327-334): linear scan of
`ir_module_.customSections` returning the first payload whose name
matches, or the empty view. -/
def Wavm.getCustomSection (w : Wavm) (name : String) : List Nat :=
  match w.ir_module_.customSections.find? (fun s => decide (s.name = name)) with
  | some s => s.data
  | none => []

/-- `Wavm::clone` (`wavm.cc` lines 234-247): constructs a fresh `Wavm`
(all members default-initialised), then clones the compartment, remaps
memory and intrinsic-module instances and the module instance into it,
and creates a fresh context.  `createCompartment`/`createContext` mint
fresh handles, here taken as parameters.  `ir_module_`, `module_` and
`has_instantiated_module_` are never assigned, so they keep their
defaults. -/
def Wavm.clone (w : Wavm) (fresh_compartment fresh_context : Nat) : Wavm :=
  { compartment_ := fresh_compartment
    memory_ := w.memory_
    context_ := fresh_context
    intrinsic_module_instances_ := w.intrinsic_module_instances_
    module_instance_ := w.module_instance_ }

/-- A concrete VM with one 65536-byte page of zeroed guest memory, used
to evaluate the embedded accessors at concrete inputs. -/
def wavmOnePage : Wavm :=
  { memory_ := ⟨1, List.replicate 65536 0⟩ }

/-- `IR::ExternType`: the declared type of an importable object,
abstracted to a tag with decidable equality. -/
structure ExternType where
  tag : Nat
deriving DecidableEq

/-- `WAVM::Runtime::Object`: a linkable runtime object carrying its
extern type (readable through `WAVM::Runtime::getExternType`). -/
structure RuntimeObject where
  ty : ExternType
deriving DecidableEq

/-- `WAVM::Runtime::getExternType(out_object)`. -/
def getExternType (o : RuntimeObject) : ExternType := o.ty

/-- Stand-in for WAVM's `asString` on extern types, used only to build
the diagnostic messages of `RootResolver::resolve`. -/
def externTypeAsString (t : ExternType) : String := toString t.tag

/-- A `WAVM::Runtime::ModuleInstance` as the resolver sees it: its named
exports, looked up by `getInstanceExport`. -/
structure ModuleInstance where
  exports : List (String × RuntimeObject)
deriving DecidableEq

/-- Association-list lookup modelling `HashMap::get` /
`getInstanceExport` (returns the first binding of the key). -/
def lookupAssoc {α : Type} : List (String × α) → String → Option α
  | [], _ => none
  | (k, v) :: rest, key => if k = key then some v else lookupAssoc rest key

/-- `WAVM::Runtime::getInstanceExport(instance, export_name)`. -/
def getInstanceExport (inst : ModuleInstance) (export_name : String) : Option RuntimeObject :=
  lookupAssoc inst.exports export_name

/-- A host-supplied fallback resolver from `resolvers_`: given
`(module_name, export_name, type)` it either produces an object
(returning `true` and setting `out_object` in the C++) or reports a
miss. -/
def FallbackResolver : Type := String → String → ExternType → Option RuntimeObject

/-- The errors `RootResolver::resolve` escalates through `vm_->error`. -/
inductive ResolveErr
  | typeMismatch (msg : String)
  | missingImport (msg : String)
deriving DecidableEq

/-- The type-mismatch message built at `wavm.cc` lines 116-119. -/
def typeMismatchMessage (module_name export_name : String) (obj : RuntimeObject)
    (ty : ExternType) : String :=
  "Failed to load WASM module due to a type mismatch in an import: " ++
    module_name ++ "." ++ export_name ++ " " ++ externTypeAsString (getExternType obj) ++
    " but was expecting type: " ++ externTypeAsString ty

/-- The missing-import message built at `wavm.cc` lines 128-129. -/
def missingImportMessage (module_name export_name : String) (ty : ExternType) : String :=
  "Failed to load Wasm module due to a missing import: " ++
    module_name ++ "." ++ export_name ++ " " ++ externTypeAsString ty

/-- The fallback loop of `RootResolver::resolve` (`wavm.cc` lines
123-129): try each resolver in order; if none succeeds, escalate a
missing-import error. -/
def resolveFallback (resolvers : List FallbackResolver) (module_name export_name : String)
    (ty : ExternType) : Except ResolveErr RuntimeObject :=
  match resolvers with
  | [] => Except.error (ResolveErr.missingImport (missingImportMessage module_name export_name ty))
  | r :: rest =>
    match r module_name export_name ty with
    | some o => Except.ok o
    | none => resolveFallback rest module_name export_name ty

/-- `RootResolver::resolve` (`wavm.cc` lines 107-130).  `isA` is WAVM's
external type-compatibility predicate, taken as a parameter.
Modelled from the spec: `WasmVm::error` is declared in
`include/proxy-wasm/wasm_vm.h`, which is not part of the source under
analysis; per the spec ("resolution fails immediately with a
type-mismatch error — it does not fall through to later resolvers";
"Both failure kinds are escalated to the caller") it aborts the calling
operation, so it is modelled as returning `Except.error`. -/
def rootResolverResolve (isA : RuntimeObject → ExternType → Bool)
    (module_name_to_instance_map : List (String × ModuleInstance))
    (resolvers : List FallbackResolver)
    (module_name export_name : String) (ty : ExternType) : Except ResolveErr RuntimeObject :=
  match lookupAssoc module_name_to_instance_map module_name with
  | some named_instance =>
    match getInstanceExport named_instance export_name with
    | some out_object =>
      if isA out_object ty then Except.ok out_object
      else Except.error (ResolveErr.typeMismatch
        (typeMismatchMessage module_name export_name out_object ty))
    | none => resolveFallback resolvers module_name export_name ty
  | none => resolveFallback resolvers module_name export_name ty

/-- `IR::ValueType` restricted to the primitive kinds this embedding
marshals (see the `inferValueType` specialisations and
`WasmUntaggedValue` at `wavm.cc` lines 54 and 88-97). -/
inductive ValueType
  | i32
  | i64
  | f32
  | f64
deriving DecidableEq

/-- `IR::FunctionType`: result kinds and parameter kinds, as produced by
`inferStdFunctionType` (`wavm.cc` lines 441-444). -/
structure FunctionType where
  results : List ValueType
  params : List ValueType
deriving DecidableEq

/-- A guest function export as seen through `WAVM::Runtime::Function` /
`getFunctionType`. -/
structure WasmFunction where
  functionType : FunctionType
deriving DecidableEq

/-- `checkFunctionType` (`wavm.cc` lines 446-448):
`getFunctionType(f) == t`. -/
def checkFunctionType (f : WasmFunction) (t : FunctionType) : Bool :=
  decide (f.functionType = t)

/-- The lookup part of `getFunctionWavmReturn` (`wavm.cc` lines 450-477
and 481-504; both overloads share it): fetch the export, return a null
`std::function` when absent, and reject a signature mismatch before any
callable is produced.  Modelled from the spec: `error` (declared in
`include/proxy-wasm/wasm_vm.h`, not in the source under analysis) is a
fatal escalation ("SignatureMismatchError ... fatal to that lookup"),
modelled as `Except.error`; `inferred` is the `FunctionType` computed by
`inferStdFunctionType` from the caller's native signature. -/
def getFunctionWavmReturn (module_instance_exports : List (String × WasmFunction))
    (function_name : String) (inferred : FunctionType) :
    Except String (Option WasmFunction) :=
  match lookupAssoc module_instance_exports function_name with
  | none => Except.ok none
  | some f =>
    if checkFunctionType f inferred then Except.ok (some f)
    else Except.error ("Bad function signature for: " ++ function_name)

/-- `WAVM::Runtime::Exception` as the embedding sees it: an
engine-internal fault whose only observable attribute is the description
`describeException` extracts before the object is destroyed. -/
structure EngineException where
  description : String
deriving DecidableEq

/-- `describeException` (WAVM, consumed at `wavm.cc` line 82). -/
def describeException (e : EngineException) : String := e.description

/-- `WasmException` thrown by `CALL_WITH_CONTEXT` (`wavm.cc` lines
77-86): carries only the human-readable description of the destroyed
engine exception. -/
structure WasmException where
  what : String
deriving DecidableEq

/-- `CALL_WITH_CONTEXT` (`wavm.cc` lines 77-86): run the invocation
under `catchRuntimeExceptions`; an engine exception is described,
destroyed (it is consumed here and appears nowhere in the result), and
re-thrown as a `WasmException` holding the description.  The
`SaveRestoreContext` context bookkeeping has no effect on the value. -/
def catchRuntimeExceptions (run : Except EngineException Nat) : Except WasmException Nat :=
  match run with
  | Except.ok v => Except.ok v
  | Except.error e => Except.error ⟨describeException e⟩

/-- The invocation lambda of the non-void `getFunctionWavmReturn`
(`wavm.cc` lines 465-476): invoke through `CALL_WITH_CONTEXT`, cast the
returned `i32` slot to `uint32_t` on success, and catch any
`std::exception` (the `WasmException` above), turning it into the single
descriptive error `error("Function: <name> failed: <what>")`.
Modelled from the spec: `error` (declared in
`include/proxy-wasm/wasm_vm.h`, not in the source under analysis)
surfaces the message to the embedding, modelled as `Except.error`. -/
def invokeGuestFunction (function_name : String) (run : Except EngineException Nat) :
    Except String Nat :=
  match catchRuntimeExceptions run with
  | Except.ok v => Except.ok (v % 2 ^ 32)
  | Except.error e => Except.error ("Function: " ++ function_name ++ " failed: " ++ e.what)

/- ------------------------------------------------------------------ -/
/- Theorems -/
/- ------------------------------------------------------------------ -/

/-- Claim C3: byte sequences whose first 4 bytes are exactly the WASM
binary magic number (and hence have length at least 4) are handed to the
binary parser, and every other byte sequence — in particular the 3-byte
truncation of the magic number — is handed to the text parser. -/
theorem loadModule_format_detection :
    (∀ code : List Nat,
        loadModuleFormat code = ParseFormat.binary ↔ code.take 4 = wasmMagicNumber) ∧
    loadModuleFormat [0x00, 0x61, 0x73] = ParseFormat.text := by
  constructor
  · intro code
    constructor
    · intro h
      by_cases hc : 4 ≤ code.length ∧ code.take 4 = wasmMagicNumber
      · exact hc.2
      · simp [loadModuleFormat, if_neg hc] at h
    · intro htake
      have hlen : 4 ≤ code.length := by
        have h4 : (code.take 4).length = 4 := by
          rw [htake]; rfl
        rw [List.length_take] at h4
        omega
      simp [loadModuleFormat, if_pos (And.intro hlen htake)]
  · rfl

/-- Claim C1: the bounds check of `Wavm::getMemory` is NOT
overflow-checked.  On a 1-page (65536-byte) memory, the request
`pointer = 2 ^ 64 - 1, size = 2` has `pointer + size > getMemorySize()`
in exact arithmetic, yet the `uint64_t` sum wraps to `1`, the check
`1 > 65536` is false, and `getMemory` succeeds (returns a view) instead
of returning `none` as the claim requires. -/
theorem getMemory_overflow_wraparound :
    2 ^ 64 - 1 + 2 > Wavm.getMemorySize wavmOnePage ∧
    (Wavm.getMemory wavmOnePage (2 ^ 64 - 1) 2).isSome = true := by
  constructor
  · decide
  · rw [Wavm.getMemory]
    rw [if_neg (by decide)]
    rfl

/-- Claim C6: on the out-of-bounds input `pointer = 2 ^ 64 - 2,
size = 3` (memory is 1 page, so `pointer + size` far exceeds it),
`Wavm::setMemory` does not return `false`: the wrapping `uint64_t` sum
is `1`, the bounds check passes, the `memcpy` is performed, and the call
reports success. -/
theorem setMemory_overflow_reports_success :
    2 ^ 64 - 2 + 3 > Wavm.getMemorySize wavmOnePage ∧
    (Wavm.setMemory wavmOnePage (2 ^ 64 - 2) 3 [1, 2, 3]).2 = true := by
  constructor
  · decide
  · rw [Wavm.setMemory]
    rw [if_neg (by decide)]

/-- Claim C8: the word accessors are not exact at the top of the
address space: on a 1-page memory, `getWord(2 ^ 64 - 1)` and
`setWord(2 ^ 64 - 1, 7)` have `pointer + 4 > getMemorySize()` in exact
arithmetic, yet the wrapping `uint64_t` sum makes the bounds check pass
and both succeed instead of failing. -/
theorem word_accessors_overflow_wraparound :
    2 ^ 64 - 1 + 4 > Wavm.getMemorySize wavmOnePage ∧
    (Wavm.getWord wavmOnePage (2 ^ 64 - 1)).isSome = true ∧
    (Wavm.setWord wavmOnePage (2 ^ 64 - 1) 7).2 = true := by
  refine ⟨by decide, ?_, ?_⟩
  · rw [Wavm.getWord]
    rw [if_neg (by decide)]
    rfl
  · rw [Wavm.setWord, Wavm.setMemory]
    rw [if_neg (by decide)]

/-- Claim C4: if the parsed module contains a custom section named
exactly `getPrecompiledSectionName()`, then with `allow_precompiled =
true` `Wavm::load` builds `module_` from that section's bytes via
`loadPrecompiledModule` instead of compiling, while with
`allow_precompiled = false` it always calls `compileModule`, the section
notwithstanding. -/
theorem load_precompiled_bypass (ir : IRModule)
    (hpresent : ∃ c ∈ ir.customSections, c.name = getPrecompiledSectionName) :
    (∃ s ∈ ir.customSections, s.name = getPrecompiledSectionName ∧
        wavmSelectModule ir true = ModuleRef.precompiled ir s.data) ∧
    wavmSelectModule ir false = ModuleRef.compiled ir := by
  constructor
  · obtain ⟨c, hc, hname⟩ := hpresent
    have hsome : (findPrecompiledObjectSection ir.customSections).isSome := by
      rw [findPrecompiledObjectSection, List.find?_isSome]
      exact ⟨c, hc, by simpa using hname⟩
    obtain ⟨s, hs⟩ := Option.isSome_iff_exists.mp hsome
    refine ⟨s, ?_, ?_, ?_⟩
    · exact List.mem_of_find?_eq_some hs
    · have := List.find?_some hs
      simpa using this
    · rw [wavmSelectModule]
      simp only [if_pos trivial]
      rw [hs]
  · rfl

/-- Concrete module carrying a `wavm.precompiled_object` custom section,
used to exercise the precompiled-bypass path. -/
def irWithPrecompiled : IRModule :=
  { customSections := [⟨"wavm.precompiled_object", [9, 9, 9]⟩] }

/-- Witness for `load_precompiled_bypass` at a concrete module. -/
theorem load_precompiled_bypass_witness :
    (∃ s ∈ irWithPrecompiled.customSections, s.name = getPrecompiledSectionName ∧
        wavmSelectModule irWithPrecompiled true = ModuleRef.precompiled irWithPrecompiled s.data) ∧
    wavmSelectModule irWithPrecompiled false = ModuleRef.compiled irWithPrecompiled :=
  load_precompiled_bypass irWithPrecompiled
    ⟨⟨"wavm.precompiled_object", [9, 9, 9]⟩, by simp [irWithPrecompiled], rfl⟩

/-- Claim C5: writing `n` bytes at an in-bounds offset `p` and reading
them back returns exactly the written payload.  Hypotheses state the
WAVM runtime invariants the embedding relies on: the byte buffer behind
`memory_base_` has `num_pages * WasmPageSize` bytes, that size fits in
`uint64_t`, the payload has length `n`, and `(p, n)` is in bounds. -/
theorem setMemory_getMemory_roundtrip (w : Wavm) (p n : Nat) (data : List Nat)
    (hlen : w.memory_.bytes.length = w.memory_.num_pages * WasmPageSize)
    (hfit : w.memory_.num_pages * WasmPageSize < 2 ^ 64)
    (hdata : data.length = n)
    (hbound : p + n ≤ Wavm.getMemorySize w) :
    (Wavm.setMemory w p n data).2 = true ∧
    Wavm.getMemory (Wavm.setMemory w p n data).1 p n = some data := by
  have hmodsize : w.memory_.num_pages * WasmPageSize % U64_MOD =
      w.memory_.num_pages * WasmPageSize := Nat.mod_eq_of_lt hfit
  have hsize : Wavm.getMemorySize w = w.memory_.num_pages * WasmPageSize := by
    rw [Wavm.getMemorySize, hmodsize]
  rw [hsize] at hbound
  have hsum : (p + n) % U64_MOD = p + n :=
    Nat.mod_eq_of_lt (lt_of_le_of_lt hbound hfit)
  have hcheck : ¬ (p + n) % U64_MOD > w.memory_.num_pages * WasmPageSize % U64_MOD := by
    rw [hsum, hmodsize]
    omega
  have hbytes : (Wavm.setMemory w p n data).1.memory_.bytes =
      w.memory_.bytes.take p ++ data.take n ++ w.memory_.bytes.drop (p + n) := by
    simp only [Wavm.setMemory]
    rw [if_neg hcheck]
  have hpages : (Wavm.setMemory w p n data).1.memory_.num_pages = w.memory_.num_pages := by
    simp only [Wavm.setMemory]
    rw [if_neg hcheck]
  have hret : (Wavm.setMemory w p n data).2 = true := by
    simp only [Wavm.setMemory]
    rw [if_neg hcheck]
  refine ⟨hret, ?_⟩
  simp only [Wavm.getMemory, hpages, hbytes]
  rw [if_neg hcheck]
  have htake : data.take n = data := by
    rw [← hdata, List.take_length]
  have hlen_take : (w.memory_.bytes.take p).length = p := by
    rw [List.length_take]
    omega
  rw [htake, List.append_assoc, List.drop_left' hlen_take, List.take_left' hdata]

/-- Witness for `setMemory_getMemory_roundtrip` on the 1-page VM. -/
theorem setMemory_getMemory_roundtrip_witness :
    (Wavm.setMemory wavmOnePage 10 3 [1, 2, 3]).2 = true ∧
    Wavm.getMemory (Wavm.setMemory wavmOnePage 10 3 [1, 2, 3]).1 10 3 = some [1, 2, 3] :=
  setMemory_getMemory_roundtrip wavmOnePage 10 3 [1, 2, 3]
    (by rw [show wavmOnePage.memory_.bytes = List.replicate 65536 0 from rfl,
          List.length_replicate]
        rfl)
    (by decide) rfl (by decide)

/-- Claim C2: when the named-instance map holds an instance for
`module_name` whose export `export_name` exists but fails the `isA`
type check, `resolve` fails with the type-mismatch error for every
fallback-resolver list — in particular also when some fallback resolver
would have produced an object for the same import. -/
theorem resolve_type_mismatch_blocks_fallback
    (isA : RuntimeObject → ExternType → Bool)
    (map : List (String × ModuleInstance)) (resolvers : List FallbackResolver)
    (module_name export_name : String) (ty : ExternType)
    (inst : ModuleInstance) (obj : RuntimeObject)
    (hmap : lookupAssoc map module_name = some inst)
    (hexp : getInstanceExport inst export_name = some obj)
    (hty : isA obj ty = false) :
    rootResolverResolve isA map resolvers module_name export_name ty =
      Except.error (ResolveErr.typeMismatch
        (typeMismatchMessage module_name export_name obj ty)) := by
  simp only [rootResolverResolve, hmap, hexp, hty]
  rfl

/-- Instance exporting `f` with extern-type tag 0, for exercising the
resolver at a concrete import. -/
def instWithMistypedExport : ModuleInstance := ⟨[("f", ⟨⟨0⟩⟩)]⟩

/-- A fallback resolver that satisfies every import with an object of
exactly the requested type. -/
def alwaysSatisfying : FallbackResolver := fun _ _ t => some ⟨t⟩

/-- Witness for `resolve_type_mismatch_blocks_fallback`: the instance
map offers `env.f` at tag 0, tag 1 is requested, and the fallback
resolver would satisfy the import — resolution still fails with the
type-mismatch error. -/
theorem resolve_type_mismatch_blocks_fallback_witness :
    rootResolverResolve (fun o t => decide (o.ty = t)) [("env", instWithMistypedExport)]
        [alwaysSatisfying] "env" "f" ⟨1⟩ =
      Except.error (ResolveErr.typeMismatch
        (typeMismatchMessage "env" "f" ⟨⟨0⟩⟩ ⟨1⟩)) :=
  resolve_type_mismatch_blocks_fallback (fun o t => decide (o.ty = t))
    [("env", instWithMistypedExport)] [alwaysSatisfying] "env" "f" ⟨1⟩
    instWithMistypedExport ⟨⟨0⟩⟩ (by rfl) (by rfl) (by decide)

/-- Claim C7: looking up an exported guest function with a native
signature whose inferred function type differs from the export's
declared type (different arity or primitive kinds) fails with the
signature error; no callable is produced, so the guest function cannot
be invoked through this lookup. -/
theorem getFunction_signature_mismatch_fails
    (exports : List (String × WasmFunction)) (function_name : String)
    (f : WasmFunction) (inferred : FunctionType)
    (hlook : lookupAssoc exports function_name = some f)
    (hty : f.functionType ≠ inferred) :
    getFunctionWavmReturn exports function_name inferred =
      Except.error ("Bad function signature for: " ++ function_name) := by
  simp only [getFunctionWavmReturn, hlook]
  rw [if_neg (by simp [checkFunctionType, hty])]

/-- A guest export of type `[i32] -> [i32]`, for exercising the
signature check. -/
def exportedFn : WasmFunction := ⟨⟨[ValueType.i32], [ValueType.i32]⟩⟩

/-- Witness for `getFunction_signature_mismatch_fails`: the export
declares `[i32] -> [i32]` but the caller's native signature infers
`[i32] -> []` (different arity), so the lookup errors out. -/
theorem getFunction_signature_mismatch_fails_witness :
    getFunctionWavmReturn [("run", exportedFn)] "run" ⟨[ValueType.i32], []⟩ =
      Except.error ("Bad function signature for: " ++ "run") :=
  getFunction_signature_mismatch_fails [("run", exportedFn)] "run"
    exportedFn ⟨[ValueType.i32], []⟩ (by rfl) (by decide)

/-- Claim C9: a fault raised while invoking a guest function surfaces to
the embedding as the single error
`"Function: <name> failed: <description of the fault>"`, whose only
payload is the human-readable description extracted from the (consumed)
engine exception; a fault-free invocation returns the marshalled value
and no engine fault representation appears in either outcome. -/
theorem invocation_fault_wrapped_descriptively (function_name : String) :
    (∀ e : EngineException,
        invokeGuestFunction function_name (Except.error e) =
          Except.error ("Function: " ++ function_name ++ " failed: " ++ describeException e)) ∧
    (∀ v : Nat,
        invokeGuestFunction function_name (Except.ok v) = Except.ok (v % 2 ^ 32)) := by
  exact ⟨fun e => rfl, fun v => rfl⟩

/-- Claim C10: a VM produced by `Wavm::clone` keeps the default
(empty) `ir_module_`, so `getCustomSection` on the clone returns the
empty view for every section name, whatever sections the original's
loaded module contained. -/
theorem clone_getCustomSection_empty (w : Wavm) (c k : Nat) (name : String) :
    Wavm.getCustomSection (Wavm.clone w c k) name = [] := rfl
